import Mathlib

/-!
Verification development for the npm-cache dependency caching tool.

The embedding models `cacheDependencyManagers/baseCacheDependencyManager.js`
(the cache coordination core) and the call site in `index.js`.

Modelling conventions:
* `path.resolve(base, p)` is modelled as string joining with `"/"` unless the
  second component is absolute (leading `"/"`); `".."`-normalisation is not
  exercised by the code paths under study.
* External effects (subprocess exit code, tar compression outcome,
  decompression outcome) are oracle parameters, so each run of a pipeline is a
  deterministic function of its config, world and oracles.
* A `World` carries the parts of process/filesystem state the core reads and
  writes: existence of the config file, resolvability of the manager CLI,
  the set of existing cache files, the install directory and its contents,
  and archive contents by path.
* Each operation returns the error value it delivers to its callback
  (`none` = the JS `null`/success), the trace of observable events in
  program order, and the updated world.
-/

namespace NpmCache

/-- Per-manager dependency config, as consumed read-only by
`CacheDependencyManager` (fields mirror the JS config object). -/
structure Config where
  cliName : String
  installCommand : String
  installOptions : String
  installDirectory : String
  configPath : String
  cacheDirectory : String
  forceRefresh : Bool
  getFileHash : String → String
  getCliVersion : String

/-- Does a path start with the separator, i.e. is it absolute? -/
def isAbsolutePath (p : String) : Bool :=
  match p.data with
  | [] => false
  | c :: _ => c == '/'

/-- `path.resolve(base, p)`: an absolute second component replaces the base,
otherwise the components are joined. -/
def pathResolve (base p : String) : String :=
  if isAbsolutePath p then p else base ++ "/" ++ p

/-- `getAbsolutePath` from the source: resolve a path against the process
working directory. -/
def getAbsolutePath (cwd relativePath : String) : String :=
  pathResolve cwd relativePath

/-- `cacheDirectory` computed in `loadDependencies`:
`path.resolve(config.cacheDirectory, config.cliName, config.getCliVersion())`. -/
def resolveCacheDir (cfg : Config) : String :=
  pathResolve (pathResolve cfg.cacheDirectory cfg.cliName) cfg.getCliVersion

/-- `cachePath` computed in `loadDependencies`:
`path.resolve(cacheDirectory, hash + '.tar.gz')`. -/
def resolveCachePath (cfg : Config) : String :=
  pathResolve (resolveCacheDir cfg) (cfg.getFileHash cfg.configPath ++ ".tar.gz")

/-- The shell command built by `installDependencies`:
`(config.installCommand + ' ' + config.installOptions).trim()`. -/
def installCommandOf (cfg : Config) : String :=
  (cfg.installCommand ++ " " ++ cfg.installOptions).trim

/-- Observable events of one pipeline, in program order. -/
inductive Ev where
  | installRun (cmd : String)
  | ensureFile (p : String)
  | flockEx (p : String)
  | flockSh (p : String)
  | flockUn (p : String)
  | compress (src dst : String)
  | rename (src dst : String)
  | clearDir (d : String)
  | decompress (p : String)
deriving DecidableEq

/-- Is this event a subprocess install run? -/
def Ev.isInstallRun : Ev → Bool
  | .installRun _ => true
  | _ => false

/-- Is this event a compression? -/
def Ev.isCompress : Ev → Bool
  | .compress _ _ => true
  | _ => false

/-- Is this event a lock acquisition (exclusive or shared)? -/
def Ev.isAcquire : Ev → Bool
  | .flockEx _ => true
  | .flockSh _ => true
  | _ => false

/-- Is this event a lock release? -/
def Ev.isRelease : Ev → Bool
  | .flockUn _ => true
  | _ => false

/-- Process/filesystem state read and written by the core. -/
structure World where
  configExists : Bool
  toolResolvable : Bool
  cacheFiles : List String
  installDirExists : Bool
  installContents : List (String × String)
  archives : List (String × List (String × String))

/-- `fs.existsSync` on a cache file path. -/
def pathExists (p : String) (w : World) : Bool :=
  w.cacheFiles.contains p

/-- Add a path to the set of existing files (`fs.ensureFileSync`). -/
def insertPath (p : String) (l : List String) : List String :=
  if l.contains p then l else p :: l

/-- Remove a path from the set of existing files. -/
def removePath (p : String) (l : List String) : List String :=
  l.filter (fun q => q != p)

/-- Drop the archive stored at a path. -/
def removeArchive (p : String) (a : List (String × List (String × String))) :
    List (String × List (String × String)) :=
  a.filter (fun e => e.1 != p)

/-- Store an archive (a list of relative-path/content entries) at a path. -/
def setArchive (p : String) (entries : List (String × String))
    (a : List (String × List (String × String))) :
    List (String × List (String × String)) :=
  (p, entries) :: removeArchive p a

/-- Read the archive stored at a path (empty when absent). -/
def lookupArchive (p : String) (a : List (String × List (String × String))) :
    List (String × String) :=
  match a.find? (fun e => e.1 == p) with
  | some e => e.2
  | none => []

/-- `CacheDependencyManager.prototype.installDependencies`: build the install
command, run it via `shell.exec`, and return the error string (or `null`).
The subprocess exit code is the oracle `exitCode`. -/
def installDependencies (cfg : Config) (exitCode : Nat) :
    Option String × List Ev :=
  if exitCode ≠ 0 then
    (some ("error running " ++ cfg.installCommand), [Ev.installRun (installCommandOf cfg)])
  else
    (none, [Ev.installRun (installCommandOf cfg)])

/-- `CacheDependencyManager.prototype.archiveDependencies`.
`compressErr` is the oracle for the `tar.gz` compression outcome
(`none` = success, `some msg` = `compressErr.message`). The `cacheDirectory`
parameter is accepted, as in the source, but unused there. -/
def archiveDependencies (cfg : Config) (cwd : String) (compressErr : Option String)
    (w : World) (cacheDirectory cachePath : String) :
    Option String × List Ev × World :=
  let installedDirectory := getAbsolutePath cwd cfg.installDirectory
  if w.installDirExists = false then
    (none, [], w)
  else
    let tmpCachePath := cachePath ++ "~"
    let w1 : World := { w with cacheFiles := insertPath tmpCachePath w.cacheFiles }
    if pathExists cachePath w1 = true then
      (none, [Ev.ensureFile tmpCachePath, Ev.flockEx tmpCachePath], w1)
    else
      match compressErr with
      | some msg =>
          (some ("error tar-ing " ++ installedDirectory ++ ": " ++ msg),
           [Ev.ensureFile tmpCachePath, Ev.flockEx tmpCachePath,
            Ev.compress installedDirectory tmpCachePath],
           w1)
      | none =>
          let w2 : World :=
            { w1 with
              cacheFiles := insertPath cachePath (removePath tmpCachePath w1.cacheFiles),
              archives := setArchive cachePath w1.installContents
                            (removeArchive tmpCachePath w1.archives) }
          (none,
           [Ev.ensureFile tmpCachePath, Ev.flockEx tmpCachePath,
            Ev.compress installedDirectory tmpCachePath,
            Ev.rename tmpCachePath cachePath, Ev.flockUn tmpCachePath],
           w2)

/-- `CacheDependencyManager.prototype.extractDependencies`.
`decompressErr` is the oracle for the decompression outcome. -/
def extractDependencies (cfg : Config) (cwd : String) (decompressErr : Option String)
    (w : World) (cachePath : String) :
    Option String × List Ev × World :=
  let installDirectory := getAbsolutePath cwd cfg.installDirectory
  let w1 : World := { w with installContents := [], installDirExists := false }
  match decompressErr with
  | some msg =>
      (some msg,
       [Ev.clearDir installDirectory, Ev.flockSh cachePath, Ev.decompress cachePath],
       w1)
  | none =>
      let entries := lookupArchive cachePath w1.archives
      let w2 : World := { w1 with installContents := entries, installDirExists := true }
      (none,
       [Ev.clearDir installDirectory, Ev.flockSh cachePath, Ev.decompress cachePath,
        Ev.flockUn cachePath],
       w2)

/-- `CacheDependencyManager.prototype.loadDependencies`, with the value it
delivers to its callback as the first component of the result. -/
def loadDependencies (cfg : Config) (cwd : String) (exitCode : Nat)
    (compressErr decompressErr : Option String) (w : World) :
    Option String × List Ev × World :=
  if w.configExists = false then
    (none, [], w)
  else if w.toolResolvable = false then
    (some ("Command line tool " ++ cfg.cliName ++ " not installed"), [], w)
  else
    let cacheDirectory := resolveCacheDir cfg
    let cachePath := resolveCachePath cfg
    if cfg.forceRefresh = false ∧ pathExists cachePath w = true then
      extractDependencies cfg cwd decompressErr w cachePath
    else
      match installDependencies cfg exitCode with
      | (some e, iev) => (some e, iev, w)
      | (none, iev) =>
          let out := archiveDependencies cfg cwd compressErr w cacheDirectory cachePath
          (out.1, iev ++ out.2.1, out.2.2)

/-- Appending the tilde suffix used for the temporary archive path always
changes the path. -/
theorem append_tilde_ne (s : String) : s ++ "~" ≠ s := by
  intro h
  have h2 := congrArg String.length h
  rw [String.length_append] at h2
  have h3 : ("~" : String).length = 1 := rfl
  rw [h3] at h2
  omega

theorem contains_insertPath (q p : String) (l : List String) (h : q ≠ p) :
    (insertPath p l).contains q = l.contains q := by
  unfold insertPath
  by_cases hc : l.contains p = true
  · rw [if_pos hc]
  · rw [if_neg hc]
    simp [List.contains_cons, h]

/-- Creating the temporary file `cachePath + "~"` does not change whether the
final `cachePath` exists. -/
theorem contains_insert_tilde (cp : String) (l : List String) :
    (insertPath (cp ++ "~") l).contains cp = l.contains cp :=
  contains_insertPath cp (cp ++ "~") l (Ne.symm (append_tilde_ne cp))

/-- Membership form of `contains_insert_tilde`. -/
theorem mem_insert_tilde (cp : String) (l : List String) :
    cp ∈ insertPath (cp ++ "~") l ↔ cp ∈ l := by
  unfold insertPath
  by_cases hc : l.contains (cp ++ "~") = true
  · rw [if_pos hc]
  · rw [if_neg hc]
    simp [Ne.symm (append_tilde_ne cp)]

/-- Reduction of the archive writer on the duplicate-work skip path. -/
theorem archiveDependencies_skip (cfg : Config) (cwd : String)
    (compressErr : Option String) (w : World) (cd cp : String)
    (hdir : w.installDirExists = true) (hex : pathExists cp w = true) :
    archiveDependencies cfg cwd compressErr w cd cp =
      (none, [Ev.ensureFile (cp ++ "~"), Ev.flockEx (cp ++ "~")],
       { w with cacheFiles := insertPath (cp ++ "~") w.cacheFiles }) := by
  have hex2 : cp ∈ w.cacheFiles := by simpa [pathExists] using hex
  simp [archiveDependencies, hdir, pathExists, mem_insert_tilde, hex2]

/-- Reduction of the archive writer when compression fails. -/
theorem archiveDependencies_fail (cfg : Config) (cwd msg : String) (w : World)
    (cd cp : String) (hdir : w.installDirExists = true)
    (hnc : pathExists cp w = false) :
    archiveDependencies cfg cwd (some msg) w cd cp =
      (some ("error tar-ing " ++ getAbsolutePath cwd cfg.installDirectory ++ ": " ++ msg),
       [Ev.ensureFile (cp ++ "~"), Ev.flockEx (cp ++ "~"),
        Ev.compress (getAbsolutePath cwd cfg.installDirectory) (cp ++ "~")],
       { w with cacheFiles := insertPath (cp ++ "~") w.cacheFiles }) := by
  have hnc2 : cp ∉ w.cacheFiles := by simpa [pathExists] using hnc
  simp [archiveDependencies, hdir, pathExists, mem_insert_tilde, hnc2]

/-- Reduction of the archive writer when compression succeeds. -/
theorem archiveDependencies_success (cfg : Config) (cwd : String) (w : World)
    (cd cp : String) (hdir : w.installDirExists = true)
    (hnc : pathExists cp w = false) :
    archiveDependencies cfg cwd none w cd cp =
      (none,
       [Ev.ensureFile (cp ++ "~"), Ev.flockEx (cp ++ "~"),
        Ev.compress (getAbsolutePath cwd cfg.installDirectory) (cp ++ "~"),
        Ev.rename (cp ++ "~") cp, Ev.flockUn (cp ++ "~")],
       { w with
         cacheFiles := insertPath cp (removePath (cp ++ "~") (insertPath (cp ++ "~") w.cacheFiles)),
         archives := setArchive cp w.installContents (removeArchive (cp ++ "~") w.archives) }) := by
  have hnc2 : cp ∉ w.cacheFiles := by simpa [pathExists] using hnc
  simp [archiveDependencies, hdir, pathExists, mem_insert_tilde, hnc2]

/-- Reduction of the orchestrator on the miss branch. -/
theorem loadDependencies_miss (cfg : Config) (cwd : String) (exitCode : Nat)
    (compressErr decompressErr : Option String) (w : World)
    (hconf : w.configExists = true) (htool : w.toolResolvable = true)
    (hmiss : ¬(cfg.forceRefresh = false ∧ pathExists (resolveCachePath cfg) w = true)) :
    loadDependencies cfg cwd exitCode compressErr decompressErr w =
      match installDependencies cfg exitCode with
      | (some e, iev) => (some e, iev, w)
      | (none, iev) =>
          ((archiveDependencies cfg cwd compressErr w (resolveCacheDir cfg) (resolveCachePath cfg)).1,
           iev ++ (archiveDependencies cfg cwd compressErr w (resolveCacheDir cfg) (resolveCachePath cfg)).2.1,
           (archiveDependencies cfg cwd compressErr w (resolveCacheDir cfg) (resolveCachePath cfg)).2.2) := by
  simp only [loadDependencies, hconf, htool]
  simp [hmiss]

/-- Reduction of the orchestrator on the hit branch. -/
theorem loadDependencies_hit (cfg : Config) (cwd : String) (exitCode : Nat)
    (compressErr decompressErr : Option String) (w : World)
    (hconf : w.configExists = true) (htool : w.toolResolvable = true)
    (hforce : cfg.forceRefresh = false)
    (hhit : pathExists (resolveCachePath cfg) w = true) :
    loadDependencies cfg cwd exitCode compressErr decompressErr w =
      extractDependencies cfg cwd decompressErr w (resolveCachePath cfg) := by
  simp [loadDependencies, hconf, htool, hforce, hhit]

/-! Concrete configs and worlds used to witness the claim theorems. -/

/-- A concrete npm config used by witnesses. -/
def exampleConfig : Config where
  cliName := "npm"
  installCommand := "npm install"
  installOptions := ""
  installDirectory := "node_modules"
  configPath := "package.json"
  cacheDirectory := "/home/u/.package_cache"
  forceRefresh := false
  getFileHash := fun _ => "abc123"
  getCliVersion := "10.0.0"

/-- The cache path `exampleConfig` resolves to. -/
def exampleCachePath : String := "/home/u/.package_cache/npm/10.0.0/abc123.tar.gz"

/-- A world where the cache entry for `exampleConfig` already exists. -/
def worldHit : World where
  configExists := true
  toolResolvable := true
  cacheFiles := [exampleCachePath]
  installDirExists := true
  installContents := [("node_modules/left-pad/index.js", "old")]
  archives := [(exampleCachePath, [("node_modules/lodash/index.js", "cached")])]

/-- A world with no cache entry for `exampleConfig`. -/
def worldMiss : World where
  configExists := true
  toolResolvable := true
  cacheFiles := []
  installDirExists := true
  installContents := [("node_modules/lodash/index.js", "fresh")]
  archives := []

/-- A world where the manager CLI is not resolvable. -/
def worldNoTool : World where
  configExists := true
  toolResolvable := false
  cacheFiles := [exampleCachePath]
  installDirExists := true
  installContents := [("node_modules/left-pad/index.js", "old")]
  archives := []

/-- A world where the dependency config file does not exist. -/
def worldNoConfig : World where
  configExists := false
  toolResolvable := true
  cacheFiles := []
  installDirExists := true
  installContents := []
  archives := []

/-- Inserting a path makes it exist. -/
theorem contains_insertPath_self (p : String) (l : List String) :
    (insertPath p l).contains p = true := by
  unfold insertPath
  by_cases hc : l.contains p = true
  · rw [if_pos hc]
    exact hc
  · rw [if_neg hc]
    simp

/-- C1: the resolved cache path equals
`cacheDirectory/cliName/getCliVersion()/getFileHash(configPath) + ".tar.gz"`,
and any two configs agreeing on `cliName`, reported CLI version, cache
directory and config-file hash resolve to the same cache path. -/
theorem cache_path_deterministic (c1 c2 : Config)
    (hname : c1.cliName = c2.cliName)
    (hver : c1.getCliVersion = c2.getCliVersion)
    (hdir : c1.cacheDirectory = c2.cacheDirectory)
    (hhash : c1.getFileHash c1.configPath = c2.getFileHash c2.configPath)
    (habs1 : isAbsolutePath c1.cliName = false)
    (habs2 : isAbsolutePath c1.getCliVersion = false)
    (habs3 : isAbsolutePath (c1.getFileHash c1.configPath ++ ".tar.gz") = false) :
    resolveCachePath c1 =
        c1.cacheDirectory ++ "/" ++ c1.cliName ++ "/" ++ c1.getCliVersion ++ "/" ++
          c1.getFileHash c1.configPath ++ ".tar.gz"
      ∧ resolveCachePath c1 = resolveCachePath c2 := by
  constructor
  · simp [resolveCachePath, resolveCacheDir, pathResolve, habs1, habs2, habs3,
      String.append_assoc]
  · simp only [resolveCachePath, resolveCacheDir, pathResolve, hname, hver, hdir, hhash]

/-- Witness for C1 at a concrete config. -/
theorem cache_path_deterministic_witness :
    resolveCachePath exampleConfig =
        exampleConfig.cacheDirectory ++ "/" ++ exampleConfig.cliName ++ "/" ++
          exampleConfig.getCliVersion ++ "/" ++
          exampleConfig.getFileHash exampleConfig.configPath ++ ".tar.gz"
      ∧ resolveCachePath exampleConfig = resolveCachePath exampleConfig :=
  cache_path_deterministic exampleConfig exampleConfig rfl rfl rfl rfl rfl rfl rfl

/-- C2: when the config file exists, the CLI tool is resolvable, `forceRefresh`
is false and a file already exists at the resolved cache path, the load
operation is exactly the extraction of that cache entry: the install
subprocess is never invoked, the install directory is cleared and the entry
is decompressed. -/
theorem hit_skips_install (cfg : Config) (cwd : String) (exitCode : Nat)
    (compressErr decompressErr : Option String) (w : World)
    (hconf : w.configExists = true) (htool : w.toolResolvable = true)
    (hforce : cfg.forceRefresh = false)
    (hhit : pathExists (resolveCachePath cfg) w = true) :
    loadDependencies cfg cwd exitCode compressErr decompressErr w =
        extractDependencies cfg cwd decompressErr w (resolveCachePath cfg)
      ∧ ((loadDependencies cfg cwd exitCode compressErr decompressErr w).2.1.all
          (fun e => !e.isInstallRun)) = true
      ∧ Ev.clearDir (getAbsolutePath cwd cfg.installDirectory) ∈
          (loadDependencies cfg cwd exitCode compressErr decompressErr w).2.1
      ∧ Ev.decompress (resolveCachePath cfg) ∈
          (loadDependencies cfg cwd exitCode compressErr decompressErr w).2.1 := by
  have hmain := loadDependencies_hit cfg cwd exitCode compressErr decompressErr w
    hconf htool hforce hhit
  refine ⟨hmain, ?_, ?_, ?_⟩ <;> rw [hmain] <;>
    cases decompressErr <;> simp [extractDependencies, Ev.isInstallRun]

/-- Witness for C2 at a concrete config and world with an existing entry. -/
theorem hit_skips_install_witness :
    loadDependencies exampleConfig "/proj" 0 none none worldHit =
        extractDependencies exampleConfig "/proj" none worldHit (resolveCachePath exampleConfig)
      ∧ ((loadDependencies exampleConfig "/proj" 0 none none worldHit).2.1.all
          (fun e => !e.isInstallRun)) = true
      ∧ Ev.clearDir (getAbsolutePath "/proj" exampleConfig.installDirectory) ∈
          (loadDependencies exampleConfig "/proj" 0 none none worldHit).2.1
      ∧ Ev.decompress (resolveCachePath exampleConfig) ∈
          (loadDependencies exampleConfig "/proj" 0 none none worldHit).2.1 :=
  hit_skips_install exampleConfig "/proj" 0 none none worldHit rfl rfl rfl rfl

/-- C3: on a cache miss (no file at the resolved cache path, or `forceRefresh`
true), the install command runs first, before any archiving; a non-zero exit
fails the operation with an error and the archive writer is never invoked; a
zero exit is followed by exactly the archive writer run on the resolved cache
path. -/
theorem miss_installs_then_archives (cfg : Config) (cwd : String) (exitCode : Nat)
    (compressErr decompressErr : Option String) (w : World)
    (hconf : w.configExists = true) (htool : w.toolResolvable = true)
    (hmiss : cfg.forceRefresh = true ∨ pathExists (resolveCachePath cfg) w = false) :
    (∃ rest, (loadDependencies cfg cwd exitCode compressErr decompressErr w).2.1 =
        Ev.installRun (installCommandOf cfg) :: rest)
      ∧ (exitCode ≠ 0 →
          loadDependencies cfg cwd exitCode compressErr decompressErr w =
            (some ("error running " ++ cfg.installCommand),
             [Ev.installRun (installCommandOf cfg)], w))
      ∧ (exitCode = 0 →
          loadDependencies cfg cwd exitCode compressErr decompressErr w =
            ((archiveDependencies cfg cwd compressErr w (resolveCacheDir cfg)
                (resolveCachePath cfg)).1,
             Ev.installRun (installCommandOf cfg) ::
               (archiveDependencies cfg cwd compressErr w (resolveCacheDir cfg)
                 (resolveCachePath cfg)).2.1,
             (archiveDependencies cfg cwd compressErr w (resolveCacheDir cfg)
               (resolveCachePath cfg)).2.2)) := by
  have hm : ¬(cfg.forceRefresh = false ∧ pathExists (resolveCachePath cfg) w = true) := by
    rcases hmiss with h | h
    · rintro ⟨h1, h2⟩
      rw [h] at h1
      cases h1
    · rintro ⟨h1, h2⟩
      rw [h] at h2
      cases h2
  have hred := loadDependencies_miss cfg cwd exitCode compressErr decompressErr w hconf htool hm
  by_cases hz : exitCode = 0
  · subst hz
    have hinst : installDependencies cfg 0 = (none, [Ev.installRun (installCommandOf cfg)]) := by
      simp [installDependencies]
    rw [hinst] at hred
    rw [hred]
    exact ⟨⟨_, rfl⟩, fun h => absurd rfl h, fun _ => rfl⟩
  · have hinst : installDependencies cfg exitCode =
        (some ("error running " ++ cfg.installCommand),
         [Ev.installRun (installCommandOf cfg)]) := by
      simp [installDependencies, hz]
    rw [hinst] at hred
    rw [hred]
    exact ⟨⟨[], rfl⟩, fun _ => rfl, fun h => absurd h hz⟩

/-- Witness for C3 at a concrete config and a world with no cache entry. -/
theorem miss_installs_then_archives_witness :
    (∃ rest, (loadDependencies exampleConfig "/proj" 0 none none worldMiss).2.1 =
        Ev.installRun (installCommandOf exampleConfig) :: rest)
      ∧ ((0 : Nat) ≠ 0 →
          loadDependencies exampleConfig "/proj" 0 none none worldMiss =
            (some ("error running " ++ exampleConfig.installCommand),
             [Ev.installRun (installCommandOf exampleConfig)], worldMiss))
      ∧ ((0 : Nat) = 0 →
          loadDependencies exampleConfig "/proj" 0 none none worldMiss =
            ((archiveDependencies exampleConfig "/proj" none worldMiss
                (resolveCacheDir exampleConfig) (resolveCachePath exampleConfig)).1,
             Ev.installRun (installCommandOf exampleConfig) ::
               (archiveDependencies exampleConfig "/proj" none worldMiss
                 (resolveCacheDir exampleConfig) (resolveCachePath exampleConfig)).2.1,
             (archiveDependencies exampleConfig "/proj" none worldMiss
               (resolveCacheDir exampleConfig) (resolveCachePath exampleConfig)).2.2)) :=
  miss_installs_then_archives exampleConfig "/proj" 0 none none worldMiss rfl rfl (Or.inr rfl)

/-- C4: the archive is compressed into the temporary sibling `cachePath + "~"`
and renamed to `cachePath` only after compression has completed (any rename in
the trace is preceded by the compression); on compression failure the
operation surfaces an error, no rename happens, nothing appears at the final
cache path, and the temporary file is left behind. -/
theorem archive_renames_after_compress (cfg : Config) (cwd : String)
    (compressErr : Option String) (w : World) (cd cp : String)
    (hdir : w.installDirExists = true)
    (hnc : pathExists cp w = false) :
    (∀ n, (archiveDependencies cfg cwd compressErr w cd cp).2.1.get? n =
        some (Ev.rename (cp ++ "~") cp) →
      ∃ m, m < n ∧ (archiveDependencies cfg cwd compressErr w cd cp).2.1.get? m =
        some (Ev.compress (getAbsolutePath cwd cfg.installDirectory) (cp ++ "~")))
      ∧ (compressErr = none →
          (archiveDependencies cfg cwd compressErr w cd cp).2.1 =
            [Ev.ensureFile (cp ++ "~"), Ev.flockEx (cp ++ "~"),
             Ev.compress (getAbsolutePath cwd cfg.installDirectory) (cp ++ "~"),
             Ev.rename (cp ++ "~") cp, Ev.flockUn (cp ++ "~")]
          ∧ (archiveDependencies cfg cwd compressErr w cd cp).1 = none
          ∧ pathExists cp (archiveDependencies cfg cwd compressErr w cd cp).2.2 = true)
      ∧ (∀ msg, compressErr = some msg →
          (archiveDependencies cfg cwd compressErr w cd cp).1 =
            some ("error tar-ing " ++ getAbsolutePath cwd cfg.installDirectory ++ ": " ++ msg)
          ∧ (∀ a b, Ev.rename a b ∉ (archiveDependencies cfg cwd compressErr w cd cp).2.1)
          ∧ pathExists cp (archiveDependencies cfg cwd compressErr w cd cp).2.2 = false
          ∧ pathExists (cp ++ "~") (archiveDependencies cfg cwd compressErr w cd cp).2.2 = true) := by
  cases compressErr with
  | none =>
      rw [archiveDependencies_success cfg cwd w cd cp hdir hnc]
      refine ⟨?_, fun _ => ⟨rfl, rfl, contains_insertPath_self cp _⟩, fun msg h => Option.noConfusion h⟩
      intro n hn
      match n, hn with
      | 0, h => simp at h
      | 1, h => simp at h
      | 2, h => simp at h
      | 3, _ => exact ⟨2, by omega, rfl⟩
      | 4, h => simp at h
      | (k + 5), h => simp at h
  | some msg =>
      rw [archiveDependencies_fail cfg cwd msg w cd cp hdir hnc]
      refine ⟨?_, fun h => Option.noConfusion h, fun m hm => ?_⟩
      · intro n hn
        match n, hn with
        | 0, h => simp at h
        | 1, h => simp at h
        | 2, h => simp at h
        | (k + 3), h => simp at h
      · cases hm
        refine ⟨rfl, ?_, ?_, contains_insertPath_self (cp ++ "~") w.cacheFiles⟩
        · intro a b
          simp
        · show (insertPath (cp ++ "~") w.cacheFiles).contains cp = false
          rw [contains_insert_tilde]
          exact hnc

/-- Witness for C4 at a concrete config and empty cache. -/
theorem archive_renames_after_compress_witness :
    (archiveDependencies exampleConfig "/proj" none worldMiss "/cache" exampleCachePath).2.1 =
        [Ev.ensureFile (exampleCachePath ++ "~"), Ev.flockEx (exampleCachePath ++ "~"),
         Ev.compress (getAbsolutePath "/proj" exampleConfig.installDirectory)
           (exampleCachePath ++ "~"),
         Ev.rename (exampleCachePath ++ "~") exampleCachePath,
         Ev.flockUn (exampleCachePath ++ "~")]
      ∧ (archiveDependencies exampleConfig "/proj" none worldMiss "/cache" exampleCachePath).1 = none
      ∧ pathExists exampleCachePath
          (archiveDependencies exampleConfig "/proj" none worldMiss "/cache" exampleCachePath).2.2 =
        true :=
  (archive_renames_after_compress exampleConfig "/proj" none worldMiss "/cache"
    exampleCachePath rfl rfl).2.1 rfl

/-- C7: the archive writer reports success without any compression when the
installed directory does not exist, and likewise when, after acquiring the
exclusive lock on the temporary path, a file already exists at the final
cache path. -/
theorem archive_skip_paths (cfg : Config) (cwd : String) (compressErr : Option String)
    (w : World) (cd cp : String) :
    (w.installDirExists = false →
        archiveDependencies cfg cwd compressErr w cd cp = (none, [], w))
      ∧ (w.installDirExists = true → pathExists cp w = true →
          archiveDependencies cfg cwd compressErr w cd cp =
              (none, [Ev.ensureFile (cp ++ "~"), Ev.flockEx (cp ++ "~")],
               { w with cacheFiles := insertPath (cp ++ "~") w.cacheFiles })
            ∧ ((archiveDependencies cfg cwd compressErr w cd cp).2.1.all
                (fun e => !e.isCompress)) = true) := by
  constructor
  · intro h
    simp [archiveDependencies, h]
  · intro hdir hex
    have hred := archiveDependencies_skip cfg cwd compressErr w cd cp hdir hex
    refine ⟨hred, ?_⟩
    rw [hred]
    simp [Ev.isCompress]

/-- Witness for C7 at a concrete world whose cache entry already exists. -/
theorem archive_skip_paths_witness :
    archiveDependencies exampleConfig "/proj" none worldHit "/cache" exampleCachePath =
        (none, [Ev.ensureFile (exampleCachePath ++ "~"), Ev.flockEx (exampleCachePath ++ "~")],
         { worldHit with cacheFiles := insertPath (exampleCachePath ++ "~") worldHit.cacheFiles })
      ∧ ((archiveDependencies exampleConfig "/proj" none worldHit "/cache" exampleCachePath).2.1.all
          (fun e => !e.isCompress)) = true :=
  (archive_skip_paths exampleConfig "/proj" none worldHit "/cache" exampleCachePath).2 rfl rfl

/-- C5 counterexample: on the writer's skip path (final cache file already
exists when the exclusive lock is acquired) the lock is acquired and never
released, and likewise the reader's shared lock is not released when
decompression fails. -/
theorem lock_release_counterexample :
    ((archiveDependencies exampleConfig "/proj" none worldHit "/cache"
        exampleCachePath).2.1.any Ev.isAcquire) = true
      ∧ ((archiveDependencies exampleConfig "/proj" none worldHit "/cache"
        exampleCachePath).2.1.any Ev.isRelease) = false
      ∧ ((extractDependencies exampleConfig "/proj" (some "bad gzip") worldHit
        exampleCachePath).2.1.any Ev.isAcquire) = true
      ∧ ((extractDependencies exampleConfig "/proj" (some "bad gzip") worldHit
        exampleCachePath).2.1.any Ev.isRelease) = false :=
  ⟨rfl, rfl, rfl, rfl⟩

/-- C5 amended: the writer's and reader's locks are always acquired, but are
released only on the fully successful outcome — the writer releases its
exclusive lock iff the final cache file was absent and compression succeeded
(not on the skip path, not on compression failure), and the reader releases
its shared lock iff decompression succeeded. -/
theorem lock_release_amended (cfg : Config) (cwd : String)
    (compressErr decompressErr : Option String) (w : World) (cd cp : String)
    (hdir : w.installDirExists = true) :
    (((archiveDependencies cfg cwd compressErr w cd cp).2.1.any Ev.isAcquire) = true
      ∧ (((archiveDependencies cfg cwd compressErr w cd cp).2.1.any Ev.isRelease) = true ↔
          pathExists cp w = false ∧ compressErr = none))
    ∧ (((extractDependencies cfg cwd decompressErr w cp).2.1.any Ev.isAcquire) = true
      ∧ (((extractDependencies cfg cwd decompressErr w cp).2.1.any Ev.isRelease) = true ↔
          decompressErr = none)) := by
  constructor
  · by_cases hex : pathExists cp w = true
    · rw [archiveDependencies_skip cfg cwd compressErr w cd cp hdir hex]
      exact ⟨rfl, by simp [hex, Ev.isRelease]⟩
    · have hnc : pathExists cp w = false := by
        cases h2 : pathExists cp w
        · rfl
        · exact absurd h2 hex
      cases compressErr with
      | none =>
          rw [archiveDependencies_success cfg cwd w cd cp hdir hnc]
          exact ⟨rfl, by simp [hnc, Ev.isRelease]⟩
      | some msg =>
          rw [archiveDependencies_fail cfg cwd msg w cd cp hdir hnc]
          exact ⟨rfl, by simp [hnc, Ev.isRelease]⟩
  · cases decompressErr with
    | none => exact ⟨rfl, by simp [extractDependencies, Ev.isRelease]⟩
    | some m => exact ⟨rfl, by simp [extractDependencies, Ev.isRelease]⟩

/-- Witness for the amended C5 at a concrete successful writer run and a
concrete successful reader run. -/
theorem lock_release_amended_witness :
    (((archiveDependencies exampleConfig "/proj" none worldMiss "/cache"
        exampleCachePath).2.1.any Ev.isAcquire) = true
      ∧ (((archiveDependencies exampleConfig "/proj" none worldMiss "/cache"
          exampleCachePath).2.1.any Ev.isRelease) = true ↔
          pathExists exampleCachePath worldMiss = false ∧ (none : Option String) = none))
    ∧ (((extractDependencies exampleConfig "/proj" none worldMiss
        exampleCachePath).2.1.any Ev.isAcquire) = true
      ∧ (((extractDependencies exampleConfig "/proj" none worldMiss
          exampleCachePath).2.1.any Ev.isRelease) = true ↔
          (none : Option String) = none)) :=
  lock_release_amended exampleConfig "/proj" none none worldMiss "/cache"
    exampleCachePath rfl

/-- C6: extraction removes the install directory's prior contents before any
decompression (the clear is the first event of the trace); after a successful
extraction the install directory holds exactly the archive's contents,
independently of its prior contents; on a decompression error the error is
surfaced, the already-cleared install directory is left empty, and no install
subprocess is run as a fallback. -/
theorem extract_clears_then_restores (cfg : Config) (cwd : String)
    (decompressErr : Option String) (w : World) (cp : String) :
    (∃ rest, (extractDependencies cfg cwd decompressErr w cp).2.1 =
        Ev.clearDir (getAbsolutePath cwd cfg.installDirectory) :: rest)
      ∧ (decompressErr = none →
          (extractDependencies cfg cwd decompressErr w cp).1 = none
          ∧ (extractDependencies cfg cwd decompressErr w cp).2.2.installContents =
              lookupArchive cp w.archives)
      ∧ (∀ msg, decompressErr = some msg →
          (extractDependencies cfg cwd decompressErr w cp).1 = some msg
          ∧ (extractDependencies cfg cwd decompressErr w cp).2.2.installContents = []
          ∧ ((extractDependencies cfg cwd decompressErr w cp).2.1.all
              (fun e => !e.isInstallRun)) = true) := by
  cases decompressErr with
  | none =>
      exact ⟨⟨_, rfl⟩, fun _ => ⟨rfl, rfl⟩, fun msg h => Option.noConfusion h⟩
  | some m =>
      refine ⟨⟨_, rfl⟩, fun h => Option.noConfusion h, fun msg hm => ?_⟩
      cases hm
      exact ⟨rfl, rfl, rfl⟩

/-- Witness for C6 at a concrete world with a cached archive. -/
theorem extract_clears_then_restores_witness :
    (extractDependencies exampleConfig "/proj" none worldHit exampleCachePath).1 = none
      ∧ (extractDependencies exampleConfig "/proj" none worldHit
          exampleCachePath).2.2.installContents =
        lookupArchive exampleCachePath worldHit.archives :=
  (extract_clears_then_restores exampleConfig "/proj" none worldHit exampleCachePath).2.1 rfl

/-- C8: when the config file exists but the manager CLI is not resolvable the
load operation fails with the tool-not-found error, with an empty trace and an
unchanged world (no filesystem mutation); when the config file does not exist
the operation succeeds immediately, also with an empty trace and an unchanged
world. -/
theorem missing_tool_or_config (cfg : Config) (cwd : String) (exitCode : Nat)
    (compressErr decompressErr : Option String) (w : World) :
    (w.configExists = false →
        loadDependencies cfg cwd exitCode compressErr decompressErr w = (none, [], w))
      ∧ (w.configExists = true → w.toolResolvable = false →
          loadDependencies cfg cwd exitCode compressErr decompressErr w =
            (some ("Command line tool " ++ cfg.cliName ++ " not installed"), [], w)) := by
  constructor
  · intro h
    simp [loadDependencies, h]
  · intro hc ht
    simp [loadDependencies, hc, ht]

/-- Witness for C8 at concrete worlds: missing CLI tool, and missing config
file. -/
theorem missing_tool_or_config_witness :
    loadDependencies exampleConfig "/proj" 0 none none worldNoTool =
        (some ("Command line tool " ++ exampleConfig.cliName ++ " not installed"), [],
         worldNoTool)
      ∧ loadDependencies exampleConfig "/proj" 0 none none worldNoConfig =
        (none, [], worldNoConfig) :=
  ⟨(missing_tool_or_config exampleConfig "/proj" 0 none none worldNoTool).2 rfl rfl,
   (missing_tool_or_config exampleConfig "/proj" 0 none none worldNoConfig).1 rfl⟩

/-! JavaScript call semantics for the `index.js` call site
`manager.loadDependencies(opts.cacheDirectory, callback)` against the
declaration `loadDependencies = function (callback)`. -/

/-- JS runtime values relevant to the call site: strings, function values
(identified by an id), and `undefined`. -/
inductive JsValue where
  | vstr (s : String)
  | vfun (id : Nat)
  | vundef
deriving DecidableEq

/-- Only function values are callable. -/
def isCallable : JsValue → Bool
  | .vfun _ => true
  | _ => false

/-- JavaScript positional parameter binding: each declared parameter is bound
to the corresponding argument, `undefined` when missing; extra arguments are
dropped. -/
def bindParams : List String → List JsValue → List (String × JsValue)
  | [], _ => []
  | p :: ps, [] => (p, JsValue.vundef) :: bindParams ps []
  | p :: ps, a :: rest => (p, a) :: bindParams ps rest

/-- The parameter list of `CacheDependencyManager.prototype.loadDependencies`:
`function (callback)`. -/
def loadDependenciesParams : List String := ["callback"]

/-- The argument list of the call in `index.js`:
`manager.loadDependencies(opts.cacheDirectory, callback)`. -/
def indexInstallArgs (cacheDirectory : String) (cbId : Nat) : List JsValue :=
  [JsValue.vstr cacheDirectory, JsValue.vfun cbId]

/-- The value bound to the parameter named `callback` at the call site. -/
def boundCallbackValue (cacheDirectory : String) (cbId : Nat) : JsValue :=
  match (bindParams loadDependenciesParams
      (indexInstallArgs cacheDirectory cbId)).lookup "callback" with
  | some v => v
  | none => JsValue.vundef

/-- Invoking a JS value with one argument: a `TypeError` unless the value is a
function. -/
def invokeJsCallback (cb : JsValue) (arg : Option String) :
    Except String (Option String) :=
  match cb with
  | JsValue.vfun _ => Except.ok arg
  | _ => Except.error "TypeError: callback is not a function"

/-- The outcome of `manager.loadDependencies(opts.cacheDirectory, callback)` as
called from `index.js`: `loadDependencies` runs with `callback` bound per
`bindParams`, and each of its termination paths invokes that bound value with
its result. -/
def loadDependenciesAtCallSite (cacheDirectory : String) (cbId : Nat) (cfg : Config)
    (cwd : String) (exitCode : Nat) (compressErr decompressErr : Option String)
    (w : World) : Except String (Option String) :=
  invokeJsCallback (boundCallbackValue cacheDirectory cbId)
    (loadDependencies cfg cwd exitCode compressErr decompressErr w).1

/-- C10: at the `index.js` call site, `loadDependencies` is invoked with two
arguments against a single declared parameter, so `callback` is bound to the
cache-directory string, the real completion callback is dropped by the
binding, the bound value is not callable, and every termination path of the
load operation — whatever the config, world and oracles — ends by invoking a
string value, a `TypeError`. -/
theorem callsite_arity_mismatch (cacheDirectory : String) (cbId : Nat) (cfg : Config)
    (cwd : String) (exitCode : Nat) (compressErr decompressErr : Option String)
    (w : World) :
    boundCallbackValue cacheDirectory cbId = JsValue.vstr cacheDirectory
      ∧ (bindParams loadDependenciesParams
          (indexInstallArgs cacheDirectory cbId)).map Prod.snd =
        [JsValue.vstr cacheDirectory]
      ∧ isCallable (boundCallbackValue cacheDirectory cbId) = false
      ∧ loadDependenciesAtCallSite cacheDirectory cbId cfg cwd exitCode compressErr
          decompressErr w = Except.error "TypeError: callback is not a function" :=
  ⟨rfl, rfl, rfl, rfl⟩

end NpmCache
